import Mathlib

/-!
Shallow embedding of the expression-evaluation engine of the repository
(package expr, file environment.go): dynamically typed runtime values,
the binary-expression executors, and the operator-token registry.

Go machine integers are modelled as Nat / Int with explicit reduction
modulo 2^64 where Go wraps; Go runtime panics (integer divide by zero,
reflect.Value.Bool on a non-bool value) are modelled as an explicit
runtimePanic outcome, distinct from returned errors.
-/

deriving instance DecidableEq for Except

namespace Juice

/-- The runtime kinds of reflect.Kind that the engine branches on
(reflect.Kind is a Go enum; only its identity matters here). -/
inductive Kind where
  | Invalid | Bool
  | Int | Int8 | Int16 | Int32 | Int64
  | Uint | Uint8 | Uint16 | Uint32 | Uint64 | Uintptr
  | Float32 | Float64 | Complex64 | Complex128
  | Array | Chan | Func | Interface | Map | Pointer | Slice
  | String | Struct | UnsafePointer
deriving DecidableEq, Repr

/-- The signed-integer kinds, the range reflect.Int .. reflect.Int64
used by the executors' kind-range tests. -/
inductive SignedKind where
  | int | int8 | int16 | int32 | int64
deriving DecidableEq, Repr

/-- The unsigned-integer kinds, the range reflect.Uint .. reflect.Uint64
(reflect.Uintptr is outside this range and is not matched). -/
inductive UnsignedKind where
  | uint | uint8 | uint16 | uint32 | uint64
deriving DecidableEq, Repr

/-- The floating-point kinds. -/
inductive FloatKind where
  | float32 | float64
deriving DecidableEq, Repr

/-- The complex kinds. -/
inductive ComplexKind where
  | complex64 | complex128
deriving DecidableEq, Repr

/-- Kinds the engine never computes with: they only ever reach the
default (error) branches of the executors. -/
inductive OtherKind where
  | uintptr | array | chan | func | iface | map | slice | strct | unsafePointer
deriving DecidableEq, Repr

/-- Symbolic IEEE-754 float expressions: the engine forwards float
payloads through Go float64 arithmetic without the claims ever
interpreting them, so float values are kept as uninterpreted terms. -/
inductive FloatSym where
  | lit (bits : Nat)
  | add (a b : FloatSym)
  | sub (a b : FloatSym)
  | mul (a b : FloatSym)
  | quo (a b : FloatSym)
deriving DecidableEq, Repr

/-- Symbolic complex128 expressions, kept uninterpreted like FloatSym. -/
inductive ComplexSym where
  | lit (rbits ibits : Nat)
  | add (a b : ComplexSym)
  | sub (a b : ComplexSym)
  | mul (a b : ComplexSym)
  | quo (a b : ComplexSym)
deriving DecidableEq, Repr

/-- A reflect.Value as the engine observes it: a runtime kind together
with the scalar payload the corresponding accessor would return.
An intV payload is the sign-extended int64 returned by Value.Int;
a uintV payload is the uint64 returned by Value.Uint.
ptrV models a pointer indirection layer (resolved by Unwrap). -/
inductive Value where
  | invalid
  | boolV (b : Bool)
  | intV (k : SignedKind) (x : Int)
  | uintV (k : UnsignedKind) (n : Nat)
  | floatV (k : FloatKind) (x : FloatSym)
  | complexV (k : ComplexKind) (x : ComplexSym)
  | stringV (s : String)
  | ptrV (v : Value)
  | otherV (k : OtherKind)
deriving DecidableEq, Repr

def SignedKind.toKind : SignedKind → Kind
  | .int => .Int
  | .int8 => .Int8
  | .int16 => .Int16
  | .int32 => .Int32
  | .int64 => .Int64

def UnsignedKind.toKind : UnsignedKind → Kind
  | .uint => .Uint
  | .uint8 => .Uint8
  | .uint16 => .Uint16
  | .uint32 => .Uint32
  | .uint64 => .Uint64

def FloatKind.toKind : FloatKind → Kind
  | .float32 => .Float32
  | .float64 => .Float64

def ComplexKind.toKind : ComplexKind → Kind
  | .complex64 => .Complex64
  | .complex128 => .Complex128

def OtherKind.toKind : OtherKind → Kind
  | .uintptr => .Uintptr
  | .array => .Array
  | .chan => .Chan
  | .func => .Func
  | .iface => .Interface
  | .map => .Map
  | .slice => .Slice
  | .strct => .Struct
  | .unsafePointer => .UnsafePointer

/-- reflect.Value.Kind of a value. -/
def Value.kindOf : Value → Kind
  | .invalid => .Invalid
  | .boolV _ => .Bool
  | .intV k _ => k.toKind
  | .uintV k _ => k.toKind
  | .floatV k _ => k.toKind
  | .complexV k _ => k.toKind
  | .stringV _ => .String
  | .ptrV _ => .Pointer
  | .otherV k => k.toKind

/-- Modelled from the spec: reflectlite.Unwrap (package internal/reflectlite,
not under src/) is the indirection-resolution step of the Dynamic Value:
it follows through any number of pointer-like indirection layers down to a
concrete kind (spec section 4.1). -/
def Unwrap : Value → Value
  | .ptrV v => Unwrap v
  | v => v

/-- reflect.Value.Bool, as called under a Kind-is-Bool guard (the one
unguarded call, in NOTExprExecutor, models the panic explicitly). -/
def Value.goBool : Value → Bool
  | .boolV b => b
  | _ => false

/-- The errors the engine returns, one constructor per distinct
fmt.Errorf format string it uses, plus an arbitrary supply of errors a
continuation may return (propagated unchanged). -/
inductive EvalError where
  | unsupportedExpr (k : Kind)
  | unsupportedOperands (k1 k2 : Kind)
  | unsupportedAnd (k : Kind)
  | unsupportedOr (k : Kind)
  | fromCont (n : Nat)
deriving DecidableEq, Repr

/-- Go runtime panics the executor code can hit. -/
inductive PanicReason where
  | integerDivideByZero
  | boolOnNonBool (k : Kind)
deriving DecidableEq, Repr

/-- The observable outcome of one Exec call: a returned value, a
returned error (the value half being the invalid sentinel), or a Go
runtime panic. -/
inductive Outcome where
  | ok (v : Value)
  | err (e : EvalError)
  | runtimePanic (r : PanicReason)
deriving DecidableEq, Repr

/-- A continuation: the zero-argument operation fetching the next
operand, which returns a value or an error. -/
abbrev Cont := Unit → Except EvalError Value

/-- A continuation that immediately yields the given value. -/
def contOk (v : Value) : Cont := fun _ => .ok v

/-- A continuation that fails with the given external error. -/
def contErr (n : Nat) : Cont := fun _ => .error (.fromCont n)

/-- LANDExprExecutor.Exec, the executor for token.LAND: unwrap the
pending operand, require Bool kind, short-circuit on false, otherwise
fetch and unwrap the other operand.  The source then re-checks the kind
of the already-validated pending operand instead of the fetched one and
returns the fetched operand. -/
def LANDExprExecutor.Exec (left0 : Value) (next : Cont) : Outcome :=
  if (Unwrap left0).kindOf ≠ .Bool then .err (.unsupportedExpr (Unwrap left0).kindOf)
  else if (Unwrap left0).goBool = false then .ok (Unwrap left0)
  else
    match next () with
    | .error e => .err e
    | .ok right0 =>
      if (Unwrap left0).kindOf ≠ .Bool then .err (.unsupportedExpr (Unwrap left0).kindOf)
      else .ok (Unwrap right0)

/-- LORExprExecutor.Exec, the executor for token.LOR: unwrap the pending
operand, require Bool kind, short-circuit on true, otherwise fetch,
unwrap and require Bool kind of the fetched operand. -/
def LORExprExecutor.Exec (left0 : Value) (next : Cont) : Outcome :=
  if (Unwrap left0).kindOf ≠ .Bool then .err (.unsupportedExpr (Unwrap left0).kindOf)
  else if (Unwrap left0).goBool = true then .ok (Unwrap left0)
  else
    match next () with
    | .error e => .err e
    | .ok right0 =>
      if (Unwrap right0).kindOf ≠ .Bool then .err (.unsupportedExpr (Unwrap right0).kindOf)
      else .ok (Unwrap right0)

/-- ANDExprExecutor.Exec, the executor for token.AND: same shape as the
LAND executor but it does validate the fetched operand, and uses its own
error format string. -/
def ANDExprExecutor.Exec (right0 : Value) (next : Cont) : Outcome :=
  if (Unwrap right0).kindOf ≠ .Bool then .err (.unsupportedAnd (Unwrap right0).kindOf)
  else if (Unwrap right0).goBool = false then .ok (Unwrap right0)
  else
    match next () with
    | .error e => .err e
    | .ok left0 =>
      if (Unwrap left0).kindOf ≠ .Bool then .err (.unsupportedAnd (Unwrap left0).kindOf)
      else .ok (Unwrap left0)

/-- ORExprExecutor.Exec, the executor for token.OR: like the LOR
executor, with its own error format string. -/
def ORExprExecutor.Exec (right0 : Value) (next : Cont) : Outcome :=
  if (Unwrap right0).kindOf ≠ .Bool then .err (.unsupportedOr (Unwrap right0).kindOf)
  else if (Unwrap right0).goBool = true then .ok (Unwrap right0)
  else
    match next () with
    | .error e => .err e
    | .ok left0 =>
      if (Unwrap left0).kindOf ≠ .Bool then .err (.unsupportedOr (Unwrap left0).kindOf)
      else .ok (Unwrap left0)

/-- NOTExprExecutor.Exec, the executor for token.NOT: ignores the
pending operand, fetches the other one and calls reflect.Value.Bool on
it without unwrapping or checking its kind, so a non-Bool fetched value
is a reflect panic. -/
def NOTExprExecutor.Exec (_ : Value) (next : Cont) : Outcome :=
  match next () with
  | .error e => .err e
  | .ok right =>
    match right with
    | .boolV b => .ok (.boolV (!b))
    | v => .runtimePanic (.boolOnNonBool v.kindOf)

/-- 2^64, the modulus of Go uint64 arithmetic. -/
def U64 : Nat := 2 ^ 64

/-- 2^63, the magnitude bound of Go int64. -/
def S63 : Nat := 2 ^ 63

/-- Reduce an integer into the int64 range, as Go two's-complement
int64 arithmetic wraps. -/
def wrapS64 (x : Int) : Int := Int.emod (x + (S63 : Int)) (U64 : Int) - (S63 : Int)

/-- The Go conversion uint64(x) of an int64 x: two's-complement
reinterpretation, i.e. reduction modulo 2^64 into 0 .. 2^64-1. -/
def intToUint64 (x : Int) : Nat := (Int.emod x (U64 : Int)).toNat

/-- Go int64 addition (wraps on overflow). -/
def goIntAdd (x y : Int) : Int := wrapS64 (x + y)

/-- Go int64 subtraction (wraps on overflow). -/
def goIntSub (x y : Int) : Int := wrapS64 (x - y)

/-- Go int64 multiplication (wraps on overflow). -/
def goIntMul (x y : Int) : Int := wrapS64 (x * y)

/-- Go int64 division for a nonzero divisor: truncated (toward zero)
quotient; the one overflow point, minInt64 / -1, wraps back to
minInt64. -/
def goIntDiv (x y : Int) : Int := wrapS64 (Int.tdiv x y)

/-- Go int64 remainder for a nonzero divisor: truncated remainder, the
sign following the dividend; it can never leave the int64 range. -/
def goIntRem (x y : Int) : Int := Int.tmod x y

/-- Go uint64 addition (wraps modulo 2^64). -/
def goUintAdd (a b : Nat) : Nat := (a + b) % U64

/-- Go uint64 subtraction (wraps modulo 2^64). -/
def goUintSub (a b : Nat) : Nat := (a + (U64 - b % U64)) % U64

/-- Go uint64 multiplication (wraps modulo 2^64). -/
def goUintMul (a b : Nat) : Nat := (a * b) % U64

/-- Go uint64 division for a nonzero divisor. -/
def goUintDiv (a b : Nat) : Nat := a / b

/-- Go uint64 remainder for a nonzero divisor. -/
def goUintRem (a b : Nat) : Nat := a % b

/-- The switch of ADDExprExecutor.Exec over the kinds of the two
unwrapped operands (r the pending operand, l the fetched one): the
signed / unsigned / float / string / complex cases of the source, in
order, with every unlisted kind combination falling to the trailing
unsupported-operands error.  Results are built exactly as the source
does: reflect.ValueOf of an int64, uint64, float64, string or
complex128. -/
def ADDExprExecutor.eval : Value → Value → Outcome
  | .intV _ x, .intV _ y => .ok (.intV .int64 (goIntAdd x y))
  | .intV _ x, .uintV _ b => .ok (.uintV .uint64 (goUintAdd (intToUint64 x) b))
  | .uintV _ a, .intV _ y => .ok (.uintV .uint64 (goUintAdd a (intToUint64 y)))
  | .uintV _ a, .uintV _ b => .ok (.uintV .uint64 (goUintAdd a b))
  | .floatV _ x, .floatV _ y => .ok (.floatV .float64 (.add x y))
  | .stringV s, .stringV t => .ok (.stringV (s ++ t))
  | .complexV _ x, .complexV _ y => .ok (.complexV .complex128 (.add x y))
  | r, l => .err (.unsupportedOperands r.kindOf l.kindOf)

/-- ADDExprExecutor.Exec, the executor for token.ADD: fetch the other
operand first (propagating its failure), unwrap both, then dispatch on
their kinds. -/
def ADDExprExecutor.Exec (right : Value) (next : Cont) : Outcome :=
  match next () with
  | .error e => .err e
  | .ok left => ADDExprExecutor.eval (Unwrap right) (Unwrap left)

/-- The kind switch of SUBExprExecutor.Exec: like ADD without the
string case (and subtracting). -/
def SUBExprExecutor.eval : Value → Value → Outcome
  | .intV _ x, .intV _ y => .ok (.intV .int64 (goIntSub x y))
  | .intV _ x, .uintV _ b => .ok (.uintV .uint64 (goUintSub (intToUint64 x) b))
  | .uintV _ a, .intV _ y => .ok (.uintV .uint64 (goUintSub a (intToUint64 y)))
  | .uintV _ a, .uintV _ b => .ok (.uintV .uint64 (goUintSub a b))
  | .floatV _ x, .floatV _ y => .ok (.floatV .float64 (.sub x y))
  | .complexV _ x, .complexV _ y => .ok (.complexV .complex128 (.sub x y))
  | r, l => .err (.unsupportedOperands r.kindOf l.kindOf)

/-- SUBExprExecutor.Exec, the executor for token.SUB. -/
def SUBExprExecutor.Exec (right : Value) (next : Cont) : Outcome :=
  match next () with
  | .error e => .err e
  | .ok left => SUBExprExecutor.eval (Unwrap right) (Unwrap left)

/-- The kind switch of MULExprExecutor.Exec. -/
def MULExprExecutor.eval : Value → Value → Outcome
  | .intV _ x, .intV _ y => .ok (.intV .int64 (goIntMul x y))
  | .intV _ x, .uintV _ b => .ok (.uintV .uint64 (goUintMul (intToUint64 x) b))
  | .uintV _ a, .intV _ y => .ok (.uintV .uint64 (goUintMul a (intToUint64 y)))
  | .uintV _ a, .uintV _ b => .ok (.uintV .uint64 (goUintMul a b))
  | .floatV _ x, .floatV _ y => .ok (.floatV .float64 (.mul x y))
  | .complexV _ x, .complexV _ y => .ok (.complexV .complex128 (.mul x y))
  | r, l => .err (.unsupportedOperands r.kindOf l.kindOf)

/-- MULExprExecutor.Exec, the executor for token.MUL. -/
def MULExprExecutor.Exec (right : Value) (next : Cont) : Outcome :=
  match next () with
  | .error e => .err e
  | .ok left => MULExprExecutor.eval (Unwrap right) (Unwrap left)

/-- The kind switch of QUOExprExecutor.Exec.  The source divides with
no zero test on the fetched divisor; an integer divisor equal to zero
is therefore the Go runtime panic, made explicit here.  Float and
complex division by zero does not panic in Go (IEEE infinities), so
those arms stay total. -/
def QUOExprExecutor.eval : Value → Value → Outcome
  | .intV _ x, .intV _ y =>
    if y = 0 then .runtimePanic .integerDivideByZero
    else .ok (.intV .int64 (goIntDiv x y))
  | .intV _ x, .uintV _ b =>
    if b = 0 then .runtimePanic .integerDivideByZero
    else .ok (.uintV .uint64 (goUintDiv (intToUint64 x) b))
  | .uintV _ a, .intV _ y =>
    if intToUint64 y = 0 then .runtimePanic .integerDivideByZero
    else .ok (.uintV .uint64 (goUintDiv a (intToUint64 y)))
  | .uintV _ a, .uintV _ b =>
    if b = 0 then .runtimePanic .integerDivideByZero
    else .ok (.uintV .uint64 (goUintDiv a b))
  | .floatV _ x, .floatV _ y => .ok (.floatV .float64 (.quo x y))
  | .complexV _ x, .complexV _ y => .ok (.complexV .complex128 (.quo x y))
  | r, l => .err (.unsupportedOperands r.kindOf l.kindOf)

/-- QUOExprExecutor.Exec, the executor for token.QUO. -/
def QUOExprExecutor.Exec (right : Value) (next : Cont) : Outcome :=
  match next () with
  | .error e => .err e
  | .ok left => QUOExprExecutor.eval (Unwrap right) (Unwrap left)

/-- The kind switch of REMExprExecutor.Exec: only the integer kind
combinations exist; a zero divisor is again the unchecked Go runtime
panic. -/
def REMExprExecutor.eval : Value → Value → Outcome
  | .intV _ x, .intV _ y =>
    if y = 0 then .runtimePanic .integerDivideByZero
    else .ok (.intV .int64 (goIntRem x y))
  | .intV _ x, .uintV _ b =>
    if b = 0 then .runtimePanic .integerDivideByZero
    else .ok (.uintV .uint64 (goUintRem (intToUint64 x) b))
  | .uintV _ a, .intV _ y =>
    if intToUint64 y = 0 then .runtimePanic .integerDivideByZero
    else .ok (.uintV .uint64 (goUintRem a (intToUint64 y)))
  | .uintV _ a, .uintV _ b =>
    if b = 0 then .runtimePanic .integerDivideByZero
    else .ok (.uintV .uint64 (goUintRem a b))
  | r, l => .err (.unsupportedOperands r.kindOf l.kindOf)

/-- REMExprExecutor.Exec, the executor for token.REM. -/
def REMExprExecutor.Exec (right : Value) (next : Cont) : Outcome :=
  match next () with
  | .error e => .err e
  | .ok left => REMExprExecutor.eval (Unwrap right) (Unwrap left)

/-- go/token.Token: the full closed enumeration of Go operator and
keyword tokens (identity by token kind). -/
inductive Token where
  | ILLEGAL | EOF | COMMENT
  | IDENT | INT | FLOAT | IMAG | CHAR | STRING
  | ADD | SUB | MUL | QUO | REM
  | AND | OR | XOR | SHL | SHR | AND_NOT
  | ADD_ASSIGN | SUB_ASSIGN | MUL_ASSIGN | QUO_ASSIGN | REM_ASSIGN
  | AND_ASSIGN | OR_ASSIGN | XOR_ASSIGN | SHL_ASSIGN | SHR_ASSIGN | AND_NOT_ASSIGN
  | LAND | LOR | ARROW | INC | DEC
  | EQL | LSS | GTR | ASSIGN | NOT
  | NEQ | LEQ | GEQ | DEFINE | ELLIPSIS
  | LPAREN | LBRACK | LBRACE | COMMA | PERIOD
  | RPAREN | RBRACK | RBRACE | SEMICOLON | COLON
  | BREAK | CASE | CHAN | CONST | CONTINUE
  | DEFAULT | DEFER | ELSE | FALLTHROUGH | FOR
  | FUNC | GO | GOTO | IF | IMPORT
  | INTERFACE | MAP | PACKAGE | RANGE | RETURN
  | SELECT | STRUCT | SWITCH | TYPE | VAR
  | TILDE
deriving DecidableEq, Repr

/-- The nineteen executor types, identified by tag: the registry is a
mapping from token to (stateless) executor instance, so instance
identity is exactly type identity. -/
inductive ExecutorTag where
  | EQL | NEQ | LSS | LEQ | GTR | GEQ
  | LAND | LOR
  | ADD | SUB | MUL | QUO | REM
  | LPAREN | RPAREN | COMMENT | NOT
  | AND | OR
deriving DecidableEq, Repr

/-- The registry error ErrUnsupportedBinaryExpr. -/
inductive RegistryError where
  | unsupportedBinaryExpr
deriving DecidableEq, Repr

/-- FromToken: the switch mapping each supported token to its executor,
with every other token going to the default arm, the
ErrUnsupportedBinaryExpr error. -/
def FromToken : Token → Except RegistryError ExecutorTag
  | .EQL => .ok .EQL
  | .NEQ => .ok .NEQ
  | .LSS => .ok .LSS
  | .LEQ => .ok .LEQ
  | .GTR => .ok .GTR
  | .GEQ => .ok .GEQ
  | .LAND => .ok .LAND
  | .LOR => .ok .LOR
  | .ADD => .ok .ADD
  | .SUB => .ok .SUB
  | .MUL => .ok .MUL
  | .QUO => .ok .QUO
  | .REM => .ok .REM
  | .LPAREN => .ok .LPAREN
  | .RPAREN => .ok .RPAREN
  | .COMMENT => .ok .COMMENT
  | .NOT => .ok .NOT
  | .AND => .ok .AND
  | .OR => .ok .OR
  | _ => .error .unsupportedBinaryExpr

/-- Membership in the closed operator-token set of the registry. -/
def isSupportedToken : Token → Bool
  | .EQL | .NEQ | .LSS | .LEQ | .GTR | .GEQ
  | .LAND | .LOR
  | .ADD | .SUB | .MUL | .QUO | .REM
  | .LPAREN | .RPAREN | .COMMENT | .NOT
  | .AND | .OR => true
  | _ => false

/-- Whether an outcome is the unsupported-operand-combination error of
the arithmetic executors. -/
def Outcome.isUnsupportedOperands : Outcome → Bool
  | .err (.unsupportedOperands _ _) => true
  | _ => false

/-- Agreement of two outcomes up to error identity: same returned value,
or both an error, or both a panic. -/
def Outcome.agrees : Outcome → Outcome → Bool
  | .ok v, .ok w => v = w
  | .err _, .err _ => true
  | .runtimePanic _, .runtimePanic _ => true
  | _, _ => false

/-- A signed-integer kind is never Bool. -/
theorem signed_toKind_ne_Bool (k : SignedKind) : k.toKind ≠ Kind.Bool := by
  cases k <;> simp [SignedKind.toKind]

/-- An unsigned-integer kind is never Bool. -/
theorem unsigned_toKind_ne_Bool (k : UnsignedKind) : k.toKind ≠ Kind.Bool := by
  cases k <;> simp [UnsignedKind.toKind]

/-- A float kind is never Bool. -/
theorem float_toKind_ne_Bool (k : FloatKind) : k.toKind ≠ Kind.Bool := by
  cases k <;> simp [FloatKind.toKind]

/-- A complex kind is never Bool. -/
theorem complex_toKind_ne_Bool (k : ComplexKind) : k.toKind ≠ Kind.Bool := by
  cases k <;> simp [ComplexKind.toKind]

/-- None of the remaining kinds is Bool. -/
theorem other_toKind_ne_Bool (k : OtherKind) : k.toKind ≠ Kind.Bool := by
  cases k <;> simp [OtherKind.toKind]

/-! Claim theorems. -/

/-- C1: the claim states that the QUO and REM executors, on integer
operands with a fetched divisor of zero, return a division-by-zero
error and never panic.  The code has no zero test: for every
signed/unsigned operand pairing it reaches Go integer division by zero,
a runtime panic, so the claim describes the intent and the code a slip.
This theorem evaluates the executors at the failing inputs. -/
theorem quo_rem_zero_divisor_panics :
    QUOExprExecutor.Exec (.intV .int 10) (contOk (.intV .int 0)) = .runtimePanic .integerDivideByZero ∧
    QUOExprExecutor.Exec (.intV .int 10) (contOk (.uintV .uint 0)) = .runtimePanic .integerDivideByZero ∧
    QUOExprExecutor.Exec (.uintV .uint 10) (contOk (.intV .int 0)) = .runtimePanic .integerDivideByZero ∧
    QUOExprExecutor.Exec (.uintV .uint 10) (contOk (.uintV .uint 0)) = .runtimePanic .integerDivideByZero ∧
    REMExprExecutor.Exec (.intV .int 10) (contOk (.intV .int 0)) = .runtimePanic .integerDivideByZero ∧
    REMExprExecutor.Exec (.intV .int 10) (contOk (.uintV .uint 0)) = .runtimePanic .integerDivideByZero ∧
    REMExprExecutor.Exec (.uintV .uint 10) (contOk (.intV .int 0)) = .runtimePanic .integerDivideByZero ∧
    REMExprExecutor.Exec (.uintV .uint 10) (contOk (.uintV .uint 0)) = .runtimePanic .integerDivideByZero := by
  decide

/-- C2: for every continuation (also an erroring one), the LAND and AND
executors on a pending operand resolving to boolean false return false
without consulting the continuation, and the LOR and OR executors on a
pending operand resolving to boolean true return true likewise: the
outcome is independent of the continuation. -/
theorem logical_short_circuit :
    ∀ (v : Value) (next : Cont),
      (Unwrap v = .boolV false →
        LANDExprExecutor.Exec v next = .ok (.boolV false) ∧
        ANDExprExecutor.Exec v next = .ok (.boolV false)) ∧
      (Unwrap v = .boolV true →
        LORExprExecutor.Exec v next = .ok (.boolV true) ∧
        ORExprExecutor.Exec v next = .ok (.boolV true)) := by
  intro v next
  constructor
  · intro h
    constructor <;>
      simp [LANDExprExecutor.Exec, ANDExprExecutor.Exec, h, Value.kindOf, Value.goBool]
  · intro h
    constructor <;>
      simp [LORExprExecutor.Exec, ORExprExecutor.Exec, h, Value.kindOf, Value.goBool]

/-- Witness for C2 at concrete inputs, with a continuation that fails
if consulted. -/
theorem logical_short_circuit_witness :
    Unwrap (.boolV false) = .boolV false ∧
    LANDExprExecutor.Exec (.boolV false) (contErr 7) = .ok (.boolV false) ∧
    ANDExprExecutor.Exec (.boolV false) (contErr 7) = .ok (.boolV false) ∧
    LORExprExecutor.Exec (.boolV true) (contErr 7) = .ok (.boolV true) ∧
    ORExprExecutor.Exec (.boolV true) (contErr 7) = .ok (.boolV true) :=
  ⟨rfl,
   ((logical_short_circuit (.boolV false) (contErr 7)).1 rfl).1,
   ((logical_short_circuit (.boolV false) (contErr 7)).1 rfl).2,
   ((logical_short_circuit (.boolV true) (contErr 7)).2 rfl).1,
   ((logical_short_circuit (.boolV true) (contErr 7)).2 rfl).2⟩

/-- C3: the claim states that all four logical executors fail with a
type error when the fetched operand does not resolve to boolean kind.
LOR, AND and OR do; the LAND executor instead re-checks the pending
operand (a slip in the source, which names the fetched value right but
tests left) and returns the non-boolean fetched operand without error.
This theorem evaluates the failing input on LAND, against the correct
behaviour of LOR on the same fetched operand. -/
theorem land_accepts_nonbool_fetched :
    LANDExprExecutor.Exec (.boolV true) (contOk (.intV .int 5)) = .ok (.intV .int 5) ∧
    LORExprExecutor.Exec (.boolV false) (contOk (.intV .int 5)) = .err (.unsupportedExpr .Int) ∧
    ANDExprExecutor.Exec (.boolV true) (contOk (.intV .int 5)) = .err (.unsupportedAnd .Int) ∧
    ORExprExecutor.Exec (.boolV false) (contOk (.intV .int 5)) = .err (.unsupportedOr .Int) := by
  decide

/-- C5: the claim states the NOT executor returns an error result, not
a panic, on a non-boolean fetched value.  The source calls
reflect.Value.Bool on the fetched value with no kind check and no
unwrapping, which is a reflect panic on any non-Bool kind; the boolean
path (negation, pending ignored) and error propagation do hold. -/
theorem not_executor_panics_on_nonbool :
    NOTExprExecutor.Exec (.boolV true) (contOk (.intV .int 5)) = .runtimePanic (.boolOnNonBool .Int) ∧
    NOTExprExecutor.Exec .invalid (contOk (.boolV true)) = .ok (.boolV false) ∧
    NOTExprExecutor.Exec .invalid (contOk (.boolV false)) = .ok (.boolV true) ∧
    NOTExprExecutor.Exec .invalid (contErr 3) = .err (.fromCont 3) := by
  decide

/-- C4 counterexample: the claim of behavioural equivalence of the two
logical-operator families fails at a concrete input: with pending
boolean true and a continuation yielding an int, the LAND executor
returns the int while the AND executor returns an error, so their
(value, error-or-none) outcomes disagree. -/
theorem land_and_disagree :
    Outcome.agrees (LANDExprExecutor.Exec (.boolV true) (contOk (.intV .int 5)))
      (ANDExprExecutor.Exec (.boolV true) (contOk (.intV .int 5))) = false := by
  decide

/-- C4 amended: LOR and OR are equivalent up to (value, error-or-none)
outcome for every pending operand and continuation; LAND and AND are so
equivalent whenever every value the continuation can yield resolves to
boolean kind (they diverge exactly when the pending operand is true and
the fetched operand is non-boolean, where LAND skips the validation). -/
theorem logical_families_agree (v : Value) (next : Cont) :
    Outcome.agrees (LORExprExecutor.Exec v next) (ORExprExecutor.Exec v next) = true ∧
    ((∀ r, next () = .ok r → (Unwrap r).kindOf = .Bool) →
      Outcome.agrees (LANDExprExecutor.Exec v next) (ANDExprExecutor.Exec v next) = true) := by
  constructor
  · unfold LORExprExecutor.Exec ORExprExecutor.Exec
    cases hv : Unwrap v <;>
      simp [Value.kindOf, Value.goBool, Outcome.agrees, signed_toKind_ne_Bool,
        unsigned_toKind_ne_Bool, float_toKind_ne_Bool, complex_toKind_ne_Bool,
        other_toKind_ne_Bool]
    case boolV b =>
      cases b
      · cases hn : next () with
        | error e => simp [Outcome.agrees]
        | ok r0 =>
          cases hu : Unwrap r0 <;>
            simp [hu, Value.kindOf, Outcome.agrees, signed_toKind_ne_Bool,
              unsigned_toKind_ne_Bool, float_toKind_ne_Bool,
              complex_toKind_ne_Bool, other_toKind_ne_Bool]
      · simp [Value.goBool, Outcome.agrees]
  · intro h
    unfold LANDExprExecutor.Exec ANDExprExecutor.Exec
    cases hv : Unwrap v <;>
      simp [Value.kindOf, Value.goBool, Outcome.agrees, signed_toKind_ne_Bool,
        unsigned_toKind_ne_Bool, float_toKind_ne_Bool, complex_toKind_ne_Bool,
        other_toKind_ne_Bool]
    case boolV b =>
      cases b
      · simp [Value.goBool, Outcome.agrees]
      · cases hn : next () with
        | error e => simp [Outcome.agrees]
        | ok r0 =>
          have hb := h r0 hn
          cases hu : Unwrap r0 <;> rw [hu] at hb <;>
            simp_all [Value.kindOf, Outcome.agrees, signed_toKind_ne_Bool,
              unsigned_toKind_ne_Bool, float_toKind_ne_Bool,
              complex_toKind_ne_Bool, other_toKind_ne_Bool]

/-- Witness for the amended C4 at concrete inputs, discharging the
boolean-continuation hypothesis. -/
theorem logical_families_agree_witness :
    Outcome.agrees (LORExprExecutor.Exec (.boolV false) (contOk (.boolV true)))
      (ORExprExecutor.Exec (.boolV false) (contOk (.boolV true))) = true ∧
    Outcome.agrees (LANDExprExecutor.Exec (.boolV true) (contOk (.boolV false)))
      (ANDExprExecutor.Exec (.boolV true) (contOk (.boolV false))) = true :=
  ⟨(logical_families_agree (.boolV false) (contOk (.boolV true))).1,
   (logical_families_agree (.boolV true) (contOk (.boolV false))).2
     (fun r hr => by
        simp only [contOk, Except.ok.injEq] at hr
        rw [← hr]
        rfl)⟩

/-- C6 counterexample: the claim of exact integer arithmetic fails at a
concrete input: pending int64 2^63-1 plus fetched int64 1 yields
-2^63 (Go int64 wrap-around), not the exact sum 2^63. -/
theorem signed_add_overflow_counterexample :
    ADDExprExecutor.Exec (.intV .int64 (2 ^ 63 - 1)) (contOk (.intV .int64 1)) =
      .ok (.intV .int64 (-(2 ^ 63))) ∧
    ADDExprExecutor.Exec (.intV .int64 (2 ^ 63 - 1)) (contOk (.intV .int64 1)) ≠
      .ok (.intV .int64 (2 ^ 63 - 1 + 1)) := by
  constructor <;> decide

/-- C6 amended: for signed-integer operands with pending value x and
fetched value y, ADD, SUB and MUL return x+y, x-y and x*y reduced into
the int64 range by two's-complement wrap-around (hence exactly whenever
the exact result fits in int64), and for y different from zero QUO and
REM return Go's truncated quotient (wrapped at the single overflow
point -2^63 divided by -1) and truncated remainder. -/
theorem signed_arith_wraparound (sk sk' : SignedKind) (x y : Int) :
    ADDExprExecutor.Exec (.intV sk x) (contOk (.intV sk' y)) =
      .ok (.intV .int64 (wrapS64 (x + y))) ∧
    SUBExprExecutor.Exec (.intV sk x) (contOk (.intV sk' y)) =
      .ok (.intV .int64 (wrapS64 (x - y))) ∧
    MULExprExecutor.Exec (.intV sk x) (contOk (.intV sk' y)) =
      .ok (.intV .int64 (wrapS64 (x * y))) ∧
    (y ≠ 0 →
      QUOExprExecutor.Exec (.intV sk x) (contOk (.intV sk' y)) =
        .ok (.intV .int64 (wrapS64 (Int.tdiv x y))) ∧
      REMExprExecutor.Exec (.intV sk x) (contOk (.intV sk' y)) =
        .ok (.intV .int64 (Int.tmod x y))) := by
  refine ⟨rfl, rfl, rfl, fun hy => ⟨?_, ?_⟩⟩ <;>
    simp [QUOExprExecutor.Exec, REMExprExecutor.Exec, QUOExprExecutor.eval,
      REMExprExecutor.eval, contOk, Unwrap, hy, goIntDiv, goIntRem]

/-- Witness for the amended C6 at x = -7, y = 2. -/
theorem signed_arith_wraparound_witness :
    (2 : Int) ≠ 0 ∧
    QUOExprExecutor.Exec (.intV .int64 (-7)) (contOk (.intV .int64 2)) =
      .ok (.intV .int64 (wrapS64 (Int.tdiv (-7) 2))) ∧
    REMExprExecutor.Exec (.intV .int64 (-7)) (contOk (.intV .int64 2)) =
      .ok (.intV .int64 (Int.tmod (-7) 2)) :=
  ⟨by decide, (signed_arith_wraparound .int64 .int64 (-7) 2).2.2.2 (by decide)⟩

/-- C7: in every mixed signed/unsigned arithmetic operation the signed
operand is converted to uint64 by intToUint64 before the uint64
operation is applied, and the result is of unsigned kind (uint64); for
QUO and REM this holds whenever the fetched divisor is nonzero (a zero
divisor is the division-by-zero case of C1). -/
theorem mixed_arith_widens_unsigned (sk : SignedKind) (uk : UnsignedKind) (x : Int) (a : Nat) :
    ADDExprExecutor.Exec (.intV sk x) (contOk (.uintV uk a)) =
      .ok (.uintV .uint64 (goUintAdd (intToUint64 x) a)) ∧
    ADDExprExecutor.Exec (.uintV uk a) (contOk (.intV sk x)) =
      .ok (.uintV .uint64 (goUintAdd a (intToUint64 x))) ∧
    SUBExprExecutor.Exec (.intV sk x) (contOk (.uintV uk a)) =
      .ok (.uintV .uint64 (goUintSub (intToUint64 x) a)) ∧
    SUBExprExecutor.Exec (.uintV uk a) (contOk (.intV sk x)) =
      .ok (.uintV .uint64 (goUintSub a (intToUint64 x))) ∧
    MULExprExecutor.Exec (.intV sk x) (contOk (.uintV uk a)) =
      .ok (.uintV .uint64 (goUintMul (intToUint64 x) a)) ∧
    MULExprExecutor.Exec (.uintV uk a) (contOk (.intV sk x)) =
      .ok (.uintV .uint64 (goUintMul a (intToUint64 x))) ∧
    (a ≠ 0 →
      QUOExprExecutor.Exec (.intV sk x) (contOk (.uintV uk a)) =
        .ok (.uintV .uint64 (goUintDiv (intToUint64 x) a)) ∧
      REMExprExecutor.Exec (.intV sk x) (contOk (.uintV uk a)) =
        .ok (.uintV .uint64 (goUintRem (intToUint64 x) a))) ∧
    (intToUint64 x ≠ 0 →
      QUOExprExecutor.Exec (.uintV uk a) (contOk (.intV sk x)) =
        .ok (.uintV .uint64 (goUintDiv a (intToUint64 x))) ∧
      REMExprExecutor.Exec (.uintV uk a) (contOk (.intV sk x)) =
        .ok (.uintV .uint64 (goUintRem a (intToUint64 x)))) := by
  refine ⟨rfl, rfl, rfl, rfl, rfl, rfl, ?_, ?_⟩ <;> intro h <;> refine ⟨?_, ?_⟩ <;>
    simp [QUOExprExecutor.Exec, REMExprExecutor.Exec, QUOExprExecutor.eval,
      REMExprExecutor.eval, contOk, Unwrap, h]

/-- Witness for C7 at x = -3, a = 2. -/
theorem mixed_arith_widens_unsigned_witness :
    (2 : Nat) ≠ 0 ∧ intToUint64 (-3) ≠ 0 ∧
    QUOExprExecutor.Exec (.intV .int64 (-3)) (contOk (.uintV .uint64 2)) =
      .ok (.uintV .uint64 (goUintDiv (intToUint64 (-3)) 2)) ∧
    REMExprExecutor.Exec (.uintV .uint64 7) (contOk (.intV .int64 (-3))) =
      .ok (.uintV .uint64 (goUintRem 7 (intToUint64 (-3)))) :=
  ⟨by decide, by decide,
   ((mixed_arith_widens_unsigned .int64 .uint64 (-3) 2).2.2.2.2.2.2.1 (by decide)).1,
   ((mixed_arith_widens_unsigned .int64 .uint64 (-3) 7).2.2.2.2.2.2.2 (by decide)).2⟩

/-- C8: the ADD executor on two text-kind operands returns the
concatenation, pending operand first; every other arithmetic executor
(SUB, MUL, QUO, REM) fails with the unsupported-operand-combination
error whenever either the pending operand or the fetched one is
text-kind, whatever the other operand is. -/
theorem text_concat_and_other_ops_reject :
    (∀ s t : String,
      ADDExprExecutor.Exec (.stringV s) (contOk (.stringV t)) = .ok (.stringV (s ++ t))) ∧
    (∀ (s : String) (v : Value),
      (SUBExprExecutor.Exec (.stringV s) (contOk v)).isUnsupportedOperands = true ∧
      (SUBExprExecutor.Exec v (contOk (.stringV s))).isUnsupportedOperands = true ∧
      (MULExprExecutor.Exec (.stringV s) (contOk v)).isUnsupportedOperands = true ∧
      (MULExprExecutor.Exec v (contOk (.stringV s))).isUnsupportedOperands = true ∧
      (QUOExprExecutor.Exec (.stringV s) (contOk v)).isUnsupportedOperands = true ∧
      (QUOExprExecutor.Exec v (contOk (.stringV s))).isUnsupportedOperands = true ∧
      (REMExprExecutor.Exec (.stringV s) (contOk v)).isUnsupportedOperands = true ∧
      (REMExprExecutor.Exec v (contOk (.stringV s))).isUnsupportedOperands = true) := by
  constructor
  · intro s t
    rfl
  · intro s v
    refine ⟨?_, ?_, ?_, ?_, ?_, ?_, ?_, ?_⟩ <;>
      cases hu : Unwrap v <;>
        simp [hu, SUBExprExecutor.Exec, SUBExprExecutor.eval, MULExprExecutor.Exec,
          MULExprExecutor.eval, QUOExprExecutor.Exec, QUOExprExecutor.eval,
          REMExprExecutor.Exec, REMExprExecutor.eval, contOk, Unwrap,
          Outcome.isUnsupportedOperands]

/-- C9: the registry FromToken maps each of the nineteen tokens of the
closed operator set to its executor, and every token outside that set
to the ErrUnsupportedBinaryExpr error; being a total Lean function it
neither panics nor produces a default executor. -/
theorem fromToken_registry_total :
    (FromToken .EQL = .ok .EQL ∧ FromToken .NEQ = .ok .NEQ ∧
     FromToken .LSS = .ok .LSS ∧ FromToken .LEQ = .ok .LEQ ∧
     FromToken .GTR = .ok .GTR ∧ FromToken .GEQ = .ok .GEQ ∧
     FromToken .LAND = .ok .LAND ∧ FromToken .LOR = .ok .LOR ∧
     FromToken .ADD = .ok .ADD ∧ FromToken .SUB = .ok .SUB ∧
     FromToken .MUL = .ok .MUL ∧ FromToken .QUO = .ok .QUO ∧
     FromToken .REM = .ok .REM ∧ FromToken .LPAREN = .ok .LPAREN ∧
     FromToken .RPAREN = .ok .RPAREN ∧ FromToken .COMMENT = .ok .COMMENT ∧
     FromToken .NOT = .ok .NOT ∧ FromToken .AND = .ok .AND ∧
     FromToken .OR = .ok .OR) ∧
    (∀ t : Token, isSupportedToken t = false →
      FromToken t = .error .unsupportedBinaryExpr) := by
  constructor
  · exact ⟨rfl, rfl, rfl, rfl, rfl, rfl, rfl, rfl, rfl, rfl, rfl, rfl, rfl, rfl, rfl,
      rfl, rfl, rfl, rfl⟩
  · intro t
    cases t <;> decide

/-- Witness for C9 at an out-of-set token. -/
theorem fromToken_registry_total_witness :
    isSupportedToken .IDENT = false ∧
    FromToken .IDENT = .error .unsupportedBinaryExpr :=
  ⟨rfl, fromToken_registry_total.2 .IDENT rfl⟩

/-- C10: mixed signed/unsigned arithmetic reinterprets the signed
operand as uint64 by two's complement, so a negative signed operand
never causes a failure and the computation proceeds modulo 2^64:
pending signed -1 plus fetched unsigned 1 is 0, pending signed 1 minus
fetched unsigned 2 wraps to 2^64-1, and every mixed ADD, SUB, MUL
(and QUO, REM for a nonzero divisor) with a negative signed operand
still returns an unsigned (uint64) value. -/
theorem mixed_negative_wraps :
    ADDExprExecutor.Exec (.intV .int64 (-1)) (contOk (.uintV .uint64 1)) =
      .ok (.uintV .uint64 0) ∧
    SUBExprExecutor.Exec (.intV .int64 1) (contOk (.uintV .uint64 2)) =
      .ok (.uintV .uint64 (2 ^ 64 - 1)) ∧
    ∀ (sk : SignedKind) (uk : UnsignedKind) (x : Int) (a : Nat), x < 0 →
      (∃ n, ADDExprExecutor.Exec (.intV sk x) (contOk (.uintV uk a)) =
        .ok (.uintV .uint64 n)) ∧
      (∃ n, ADDExprExecutor.Exec (.uintV uk a) (contOk (.intV sk x)) =
        .ok (.uintV .uint64 n)) ∧
      (∃ n, SUBExprExecutor.Exec (.intV sk x) (contOk (.uintV uk a)) =
        .ok (.uintV .uint64 n)) ∧
      (∃ n, SUBExprExecutor.Exec (.uintV uk a) (contOk (.intV sk x)) =
        .ok (.uintV .uint64 n)) ∧
      (∃ n, MULExprExecutor.Exec (.intV sk x) (contOk (.uintV uk a)) =
        .ok (.uintV .uint64 n)) ∧
      (∃ n, MULExprExecutor.Exec (.uintV uk a) (contOk (.intV sk x)) =
        .ok (.uintV .uint64 n)) ∧
      (a ≠ 0 →
        (∃ n, QUOExprExecutor.Exec (.intV sk x) (contOk (.uintV uk a)) =
          .ok (.uintV .uint64 n)) ∧
        (∃ n, REMExprExecutor.Exec (.intV sk x) (contOk (.uintV uk a)) =
          .ok (.uintV .uint64 n))) ∧
      (intToUint64 x ≠ 0 →
        (∃ n, QUOExprExecutor.Exec (.uintV uk a) (contOk (.intV sk x)) =
          .ok (.uintV .uint64 n)) ∧
        (∃ n, REMExprExecutor.Exec (.uintV uk a) (contOk (.intV sk x)) =
          .ok (.uintV .uint64 n))) := by
  refine ⟨by decide, by decide, ?_⟩
  intro sk uk x a _
  refine ⟨⟨_, rfl⟩, ⟨_, rfl⟩, ⟨_, rfl⟩, ⟨_, rfl⟩, ⟨_, rfl⟩, ⟨_, rfl⟩, ?_, ?_⟩
  · intro h
    exact ⟨⟨goUintDiv (intToUint64 x) a,
              by simp [QUOExprExecutor.Exec, QUOExprExecutor.eval, contOk, Unwrap, h]⟩,
           ⟨goUintRem (intToUint64 x) a,
              by simp [REMExprExecutor.Exec, REMExprExecutor.eval, contOk, Unwrap, h]⟩⟩
  · intro h
    exact ⟨⟨goUintDiv a (intToUint64 x),
              by simp [QUOExprExecutor.Exec, QUOExprExecutor.eval, contOk, Unwrap, h]⟩,
           ⟨goUintRem a (intToUint64 x),
              by simp [REMExprExecutor.Exec, REMExprExecutor.eval, contOk, Unwrap, h]⟩⟩

/-- Witness for C10 at x = -3, a = 2. -/
theorem mixed_negative_wraps_witness :
    (-3 : Int) < 0 ∧ (2 : Nat) ≠ 0 ∧
    (∃ n, ADDExprExecutor.Exec (.intV .int64 (-3)) (contOk (.uintV .uint64 2)) =
      .ok (.uintV .uint64 n)) ∧
    (∃ n, QUOExprExecutor.Exec (.intV .int64 (-3)) (contOk (.uintV .uint64 2)) =
      .ok (.uintV .uint64 n)) :=
  ⟨by decide, by decide,
   (mixed_negative_wraps.2.2 .int64 .uint64 (-3) 2 (by decide)).1,
   ((mixed_negative_wraps.2.2 .int64 .uint64 (-3) 2 (by decide)).2.2.2.2.2.2.1 (by decide)).1⟩

end Juice
